import Mathlib

/-!
Verification of the snippetbox request-processing pipeline (cmd/web) against
its specification.  The Go source is shallowly embedded: session state,
response state and the server-side log are carried in an explicit `World`
record, handlers are functions `World → World`, and external collaborators
(the database, the form decoder, the email regular expression) are passed in
as oracles.  The scs session-manager operations (Put, Remove, PopString,
Exists, RenewToken) are modelled as the key/value-store operations the code
calls, per spec section 4.2; session data lives in a token-indexed store so
that token rotation is observable.
-/

namespace Snippetbox

/-- A value stored in a session under a string key.  The application stores
the authenticated user id (an int) and strings (flash, redirect path). -/
inductive Val where
  | vint : Int → Val
  | vstr : String → Val
deriving DecidableEq, Repr

/-- Session data: an association list from string keys to values, with
Go-map semantics implemented by the operations below. -/
abbrev SessionData := List (String × Val)

/-- Lookup of a session key (first match). -/
def slookup : SessionData → String → Option Val
  | [], _ => none
  | (k', v') :: rest, k => if k' = k then some v' else slookup rest k

/-- Go-map write: replace the first binding of the key, or append a new one. -/
def sput : SessionData → String → Val → SessionData
  | [], k, v => [(k, v)]
  | (k', v') :: rest, k, v =>
    if k' = k then (k, v) :: rest else (k', v') :: sput rest k v

/-- Go-map delete: remove every binding of the key. -/
def sremove : SessionData → String → SessionData
  | [], _ => []
  | (k', v') :: rest, k =>
    if k' = k then sremove rest k else (k', v') :: sremove rest k

theorem slookup_sput (d : SessionData) (k u : String) (v : Val) :
    slookup (sput d k v) u = if k = u then some v else slookup d u := by
  induction d with
  | nil => simp [sput, slookup]
  | cons e rest ih =>
    obtain ⟨k', v'⟩ := e
    by_cases h1 : k' = k
    · subst h1
      by_cases h2 : k' = u <;> simp [sput, slookup, h2]
    · by_cases h2 : k' = u
      · subst h2
        have hku : k ≠ k' := fun h => h1 h.symm
        simp [sput, slookup, h1, hku]
      · simp [sput, slookup, h1, h2, ih]

theorem slookup_sremove (d : SessionData) (k u : String) :
    slookup (sremove d k) u = if k = u then none else slookup d u := by
  induction d with
  | nil => simp [sremove, slookup]
  | cons e rest ih =>
    obtain ⟨k', v'⟩ := e
    by_cases h1 : k' = k
    · subst h1
      by_cases h2 : k' = u
      · subst h2; simp [sremove, slookup, ih]
      · simp [sremove, slookup, h2, ih]
    · by_cases h2 : k' = u
      · subst h2
        have hku : k ≠ k' := fun h => h1 h.symm
        simp [sremove, slookup, h1, hku]
      · simp [sremove, slookup, h1, h2, ih]

theorem slookup_isSome_iff (d : SessionData) (k : String) :
    (slookup d k).isSome = true ↔ ∃ v, (k, v) ∈ d := by
  induction d with
  | nil => simp [slookup]
  | cons e rest ih =>
    obtain ⟨k', v'⟩ := e
    by_cases h : k' = k
    · subst h
      simp [slookup]
    · simp only [slookup, h, if_false, ih, List.mem_cons]
      constructor
      · rintro ⟨v, hv⟩; exact ⟨v, Or.inr hv⟩
      · rintro ⟨v, hv | hv⟩
        · cases hv; simp at h
        · exact ⟨v, hv⟩

/-- The session store: association list from session tokens to session data
(the durable key-to-state mapping of spec section 2, keyed by token). -/
abbrev SessionStore := List (Nat × SessionData)

/-- Store lookup by token. -/
def storeLookup : SessionStore → Nat → Option SessionData
  | [], _ => none
  | (t', d') :: rest, t => if t' = t then some d' else storeLookup rest t

/-- Store write: replace the data under a token, or add the token. -/
def storeWrite : SessionStore → Nat → SessionData → SessionStore
  | [], t, d => [(t, d)]
  | (t', d') :: rest, t, d =>
    if t' = t then (t, d) :: rest else (t', d') :: storeWrite rest t d

/-- Store delete: the token no longer resolves afterwards. -/
def storeErase : SessionStore → Nat → SessionStore
  | [], _ => []
  | (t', d') :: rest, t =>
    if t' = t then storeErase rest t else (t', d') :: storeErase rest t

theorem storeLookup_storeWrite (st : SessionStore) (t u : Nat) (d : SessionData) :
    storeLookup (storeWrite st t d) u = if t = u then some d else storeLookup st u := by
  induction st with
  | nil => simp [storeWrite, storeLookup]
  | cons e rest ih =>
    obtain ⟨t', d'⟩ := e
    by_cases h1 : t' = t
    · subst h1
      by_cases h2 : t' = u <;> simp [storeWrite, storeLookup, h2]
    · by_cases h2 : t' = u
      · subst h2
        have htu : t ≠ t' := fun h => h1 h.symm
        simp [storeWrite, storeLookup, h1, htu]
      · simp [storeWrite, storeLookup, h1, h2, ih]

theorem storeLookup_storeErase (st : SessionStore) (t u : Nat) :
    storeLookup (storeErase st t) u = if t = u then none else storeLookup st u := by
  induction st with
  | nil => simp [storeErase, storeLookup]
  | cons e rest ih =>
    obtain ⟨t', d'⟩ := e
    by_cases h1 : t' = t
    · subst h1
      by_cases h2 : t' = u
      · subst h2; simp [storeErase, storeLookup, ih]
      · simp [storeErase, storeLookup, h2, ih]
    · by_cases h2 : t' = u
      · subst h2
        have htu : t ≠ t' := fun h => h1 h.symm
        simp [storeErase, storeLookup, h1, htu]
      · simp [storeErase, storeLookup, h1, h2, ih]

/-- Observable session-manager events, used to state ordering properties
(renewal strictly before granting or revoking authentication state). -/
inductive Ev where
  | renew : Ev
  | put : String → Ev
  | remove : String → Ev
  | pop : String → Ev
deriving DecidableEq, Repr

/-- The response under construction: status, headers, body text and the
redirect target (http.Redirect sets a Location and a 3xx status). -/
structure Response where
  status : Option Nat
  headers : List (String × String)
  body : String
  redirectTo : Option String
deriving DecidableEq, Repr

/-- The state a request acts on: the token-indexed session store, the current
request's session token, the fresh-token source, the response being built,
the server-side error log, and the trace of session-manager events. -/
structure World where
  store : SessionStore
  current : Nat
  next : Nat
  resp : Response
  log : List String
  events : List Ev
deriving DecidableEq, Repr

/-- The data of the current request's session (empty if the token does not
resolve; scs materialises an empty session in that case). -/
def currentData (w : World) : SessionData :=
  (storeLookup w.store w.current).getD []

/-- sessionManager.Put for the current request. -/
def wput (w : World) (k : String) (v : Val) : World :=
  { w with
    store := storeWrite w.store w.current (sput (currentData w) k v)
    events := w.events ++ [Ev.put k] }

/-- sessionManager.Remove for the current request. -/
def wremove (w : World) (k : String) : World :=
  { w with
    store := storeWrite w.store w.current (sremove (currentData w) k)
    events := w.events ++ [Ev.remove k] }

/-- sessionManager.PopString for the current request: returns the string
value (or "" when the key is absent or not a string) and removes the key. -/
def wpopString (w : World) (k : String) : String × World :=
  let d := currentData w
  let s := match slookup d k with
    | some (Val.vstr s) => s
    | _ => ""
  (s, { w with
        store := storeWrite w.store w.current (sremove d k)
        events := w.events ++ [Ev.pop k] })

/-- sessionManager.Exists for the current request. -/
def wexists (w : World) (k : String) : Bool :=
  (slookup (currentData w) k).isSome

/-- sessionManager.GetInt for the current request (0 when absent/non-int). -/
def wgetInt (w : World) (k : String) : Int :=
  match slookup (currentData w) k with
  | some (Val.vint n) => n
  | _ => 0

/-- sessionManager.RenewToken: the session's data moves to a fresh token and
the old token is deleted from the store, so it no longer resolves. -/
def wrenewToken (w : World) : World :=
  { w with
    store := storeWrite (storeErase w.store w.current) w.next (currentData w)
    current := w.next
    next := w.next + 1
    events := w.events ++ [Ev.renew] }

/-- http.StatusText for the codes the application uses. -/
def statusText (code : Nat) : String :=
  if code = 303 then "See Other"
  else if code = 400 then "Bad Request"
  else if code = 404 then "Not Found"
  else if code = 422 then "Unprocessable Entity"
  else if code = 500 then "Internal Server Error"
  else ""

/-- w.Header().Add: appends a header value. -/
def addHeader (w : World) (k v : String) : World :=
  { w with resp := { w.resp with headers := w.resp.headers ++ [(k, v)] } }

/-- w.Header().Set: replaces any existing values of the header. -/
def setHeader (w : World) (k v : String) : World :=
  { w with resp :=
      { w.resp with headers := w.resp.headers.filter (fun e => e.1 ≠ k) ++ [(k, v)] } }

/-- http.Error: writes the status code and the status text as the body. -/
def httpError (w : World) (code : Nat) : World :=
  { w with resp := { w.resp with status := some code, body := statusText code ++ "\n" } }

/-- http.Redirect: records the target and the 3xx status. -/
def redirect (w : World) (path : String) (code : Nat) : World :=
  { w with resp := { w.resp with status := some code, redirectTo := some path } }

/-- Abstract model of the stack trace produced by debug.Stack(). -/
def stackTrace : String := "goroutine stack"

/-- helpers.go serverError: logs the error text plus the stack trace to the
error log, then sends the generic 500 response. -/
def serverError (w : World) (err : String) : World :=
  httpError { w with log := w.log ++ [err ++ "\n" ++ stackTrace] } 500

/-- helpers.go clientError. -/
def clientError (w : World) (code : Nat) : World :=
  httpError w code

/-- helpers.go notFound: clientError with 404. -/
def notFound (w : World) : World :=
  clientError w 404

/-- helpers.go isAuthenticated: sessionManager.Exists on "authenticatedUserID". -/
def isAuthenticated (w : World) : Bool :=
  wexists w "authenticatedUserID"

/-- A request handler in the embedded pipeline. -/
abbrev Handler := World → World

/-- middleware.go requireAuthentication: unauthenticated requests are
redirected to /user/login and the wrapped handler is not invoked;
authenticated requests get a Cache-Control: no-store header (via Add) and
proceed to the wrapped handler. -/
def requireAuthentication (next : Handler) : Handler := fun w =>
  if isAuthenticated w then next (addHeader w "Cache-Control" "no-store")
  else redirect w "/user/login" 303

/-- Claim C1: for a request whose session is not authenticated, the gate
responds with a 303 redirect to /user/login and the wrapped handler is never
invoked (the result is a pure redirect of the incoming state, identical for
every wrapped handler, so none of the handler's effects occur); for an
authenticated session the gate adds the Cache-Control: no-store header and
invokes the wrapped handler on exactly that state. -/
theorem requireAuthentication_gate (next : Handler) (w : World) :
    (isAuthenticated w = false →
      requireAuthentication next w = redirect w "/user/login" 303
      ∧ ∀ next' : Handler, requireAuthentication next w = requireAuthentication next' w)
    ∧ (isAuthenticated w = true →
      requireAuthentication next w = next (addHeader w "Cache-Control" "no-store")
      ∧ ("Cache-Control", "no-store") ∈ (addHeader w "Cache-Control" "no-store").resp.headers) := by
  constructor
  · intro h
    constructor
    · simp [requireAuthentication, h]
    · intro next'
      simp [requireAuthentication, h]
  · intro h
    constructor
    · simp [requireAuthentication, h]
    · simp [addHeader]

/-- An unauthenticated starting world used for concrete evaluations. -/
def w0 : World :=
  { store := [(0, [])], current := 0, next := 1
    resp := { status := none, headers := [], body := "", redirectTo := none }
    log := [], events := [] }

/-- An authenticated starting world used for concrete evaluations. -/
def w1 : World :=
  { store := [(0, [("authenticatedUserID", Val.vint 7)])], current := 0, next := 1
    resp := { status := none, headers := [], body := "", redirectTo := none }
    log := [], events := [] }

/-- Concrete witness for the authentication gate: on the unauthenticated
world the gate redirects to /user/login regardless of the wrapped handler,
and on the authenticated world it runs the handler with the no-store header. -/
theorem requireAuthentication_gate_witness :
    isAuthenticated w0 = false
    ∧ requireAuthentication id w0 = redirect w0 "/user/login" 303
    ∧ isAuthenticated w1 = true
    ∧ requireAuthentication id w1 = id (addHeader w1 "Cache-Control" "no-store") :=
  ⟨by decide,
   ((requireAuthentication_gate id w0).1 (by decide)).1,
   by decide,
   ((requireAuthentication_gate id w1).2 (by decide)).1⟩

/-- Claim C6: isAuthenticated returns true exactly when the current session
holds a value under the authenticated-user key "authenticatedUserID". -/
theorem isAuthenticated_iff_userID_in_session (w : World) :
    isAuthenticated w = true ↔ ∃ v, ("authenticatedUserID", v) ∈ currentData w := by
  unfold isAuthenticated wexists
  exact slookup_isSome_iff (currentData w) "authenticatedUserID"

/-- Concrete witness for the isAuthenticated characterisation on the
authenticated world. -/
theorem isAuthenticated_iff_userID_in_session_witness :
    isAuthenticated w1 = true ↔ ∃ v, ("authenticatedUserID", v) ∈ currentData w1 :=
  isAuthenticated_iff_userID_in_session w1

/-- An inner handler chain that may raise a panic.  A normal run yields the
final world; a panic carries the panic message (the value formatted by
fmt.Errorf) together with the world at the moment the panic unwound. -/
abbrev FallibleHandler := World → Except (String × World) World

/-- middleware.go recoverPanic: the deferred recover() intercepts any panic
from the inner chain, sets a Connection: close header (via Set) and calls
serverError with the recovered value. -/
def recoverPanic (inner : FallibleHandler) : Handler := fun w =>
  match inner w with
  | Except.ok w' => w'
  | Except.error (msg, wp) => serverError (setHeader wp "Connection" "close") msg

/-- Claim C4: every panic of the inner chain is caught: the wrapper marks the
connection for closure with a Connection: close header, responds 500 with the
generic status-text body that does not depend on the fault (so carries no
fault detail), and appends the fault detail plus the stack trace to the
server-side error log only. -/
theorem recoverPanic_contains_fault (inner : FallibleHandler) (w : World)
    (msg : String) (wp : World) (hp : inner w = Except.error (msg, wp)) :
    recoverPanic inner w = serverError (setHeader wp "Connection" "close") msg
    ∧ ("Connection", "close") ∈ (recoverPanic inner w).resp.headers
    ∧ (recoverPanic inner w).resp.status = some 500
    ∧ (recoverPanic inner w).resp.body = statusText 500 ++ "\n"
    ∧ (recoverPanic inner w).log = wp.log ++ [msg ++ "\n" ++ stackTrace] := by
  refine ⟨by simp [recoverPanic, hp], ?_, ?_, ?_, ?_⟩ <;>
    simp [recoverPanic, hp, serverError, httpError, setHeader, statusText]

/-- Concrete witness for panic recovery: an inner handler that panics with
message "boom" on the unauthenticated world. -/
theorem recoverPanic_contains_fault_witness :
    (fun w => Except.error ("boom", w) : FallibleHandler) w0 = Except.error ("boom", w0)
    ∧ ("Connection", "close") ∈
        (recoverPanic (fun w => Except.error ("boom", w)) w0).resp.headers
    ∧ (recoverPanic (fun w => Except.error ("boom", w)) w0).resp.status = some 500
    ∧ (recoverPanic (fun w => Except.error ("boom", w)) w0).resp.body = statusText 500 ++ "\n"
    ∧ (recoverPanic (fun w => Except.error ("boom", w)) w0).log =
        w0.log ++ ["boom" ++ "\n" ++ stackTrace] :=
  ⟨rfl,
   (recoverPanic_contains_fault (fun w => Except.error ("boom", w)) w0 "boom" w0 rfl).2.1,
   (recoverPanic_contains_fault (fun w => Except.error ("boom", w)) w0 "boom" w0 rfl).2.2.1,
   (recoverPanic_contains_fault (fun w => Except.error ("boom", w)) w0 "boom" w0 rfl).2.2.2.1,
   (recoverPanic_contains_fault (fun w => Except.error ("boom", w)) w0 "boom" w0 rfl).2.2.2.2⟩

/-- A middleware constructor (an alice chain element): wraps a handler. -/
abbrev Mw := Handler → Handler

/-- alice.New: a chain is exactly the ordered list of its constructors. -/
def aliceNew (ms : List Mw) : List Mw := ms

/-- alice Chain.Append: builds a new chain from a copy of the base chain's
constructors with the extra ones behind them; the base chain is unchanged. -/
def aliceAppend (c : List Mw) (m : Mw) : List Mw := c ++ [m]

/-- alice Chain.Then: wraps the terminal handler with the constructors from
last to first, producing chain[0](chain[1](...(chain[n](handler)))). -/
def aliceThen (c : List Mw) (h : Handler) : Handler :=
  c.foldr (fun m acc => m acc) h

/-- The "dynamic" middleware chain of routes(): session LoadAndSave, noSurf
and authenticate (the latter three middlewares are not needed structurally,
so they stay abstract parameters here). -/
def dynamicChain (loadAndSave noSurfMw authenticateMw : Mw) : List Mw :=
  aliceNew [loadAndSave, noSurfMw, authenticateMw]

/-- The "protected" chain of routes(): the dynamic chain with the
authentication gate appended. -/
def protectedChain (loadAndSave noSurfMw authenticateMw : Mw) : List Mw :=
  aliceAppend (dynamicChain loadAndSave noSurfMw authenticateMw) requireAuthentication

/-- Claim C5: composition is pure right-to-left folding — the empty chain is
the identity and a chain w :: c wraps with w outermost, so a chain
[w1, ..., wn] produces w1(w2(...wn(h))) and a request traverses w1 first and
the handler last; appending a wrapper is structural (the new chain is the old
list plus one element, and composing it equals composing the old chain onto
the wrapped handler); concretely, the app's protected chain is the dynamic
chain with exactly the authentication gate appended, the dynamic chain
itself staying what it was built as. -/
theorem alice_composition (m : Mw) (c : List Mw) (h : Handler)
    (loadAndSave noSurfMw authenticateMw : Mw) :
    aliceThen (aliceNew []) h = h
    ∧ aliceThen (m :: c) h = m (aliceThen c h)
    ∧ aliceThen (aliceAppend c m) h = aliceThen c (m h)
    ∧ aliceAppend c m = c ++ [m]
    ∧ protectedChain loadAndSave noSurfMw authenticateMw
        = dynamicChain loadAndSave noSurfMw authenticateMw ++ [requireAuthentication]
    ∧ dynamicChain loadAndSave noSurfMw authenticateMw
        = [loadAndSave, noSurfMw, authenticateMw]
    ∧ aliceThen (protectedChain loadAndSave noSurfMw authenticateMw) h
        = loadAndSave (noSurfMw (authenticateMw (requireAuthentication h))) := by
  refine ⟨rfl, rfl, ?_, rfl, rfl, rfl, rfl⟩
  simp [aliceThen, aliceAppend, List.foldr_append]

/-- Modelled from the spec: the internal/validators package is not included
under src/ (only its callers are).  Spec section 3: a form holds a
validation-error map (field name mapped to the first failing message) and a
free-standing list of non-field errors. -/
structure Validator where
  FieldErrors : List (String × String)
  NonFieldErrors : List String
deriving DecidableEq, Repr

/-- Modelled from the spec: adds a field error, keeping only the first
failing message per field name. -/
def Validator.AddFieldError (v : Validator) (field msg : String) : Validator :=
  if (slookupStr v.FieldErrors field).isSome then v
  else { v with FieldErrors := v.FieldErrors ++ [(field, msg)] }
where
  slookupStr : List (String × String) → String → Option String
    | [], _ => none
    | (k', m') :: rest, k => if k' = k then some m' else slookupStr rest k

/-- Modelled from the spec: appends a non-field error. -/
def Validator.AddNonFieldError (v : Validator) (msg : String) : Validator :=
  { v with NonFieldErrors := v.NonFieldErrors ++ [msg] }

/-- Modelled from the spec: records the field error when the condition
result is false. -/
def Validator.CheckField (v : Validator) (ok : Bool) (field msg : String) : Validator :=
  if ok then v else v.AddFieldError field msg

/-- Modelled from the spec: valid exactly when both error collections are
empty. -/
def Validator.Valid (v : Validator) : Bool :=
  v.FieldErrors.isEmpty && v.NonFieldErrors.isEmpty

/-- Modelled from the spec: NotBlank checks the whitespace-trimmed value is
not empty; trimming is modelled structurally on the character list. -/
def NotBlank (s : String) : Bool :=
  !(((s.data.dropWhile Char.isWhitespace).reverse.dropWhile
      Char.isWhitespace).reverse.isEmpty)

/-- handlers.go userLoginForm: submitted email and password. -/
structure LoginForm where
  email : String
  password : String
deriving DecidableEq, Repr

/-- The validation run of userLoginPost: NotBlank(email), EmailRX match on
email, NotBlank(password).  The email regular expression lives in the
validators package outside src/, so it is an oracle parameter rx. -/
def loginChecks (form : LoginForm) (rx : String → Bool) : Validator :=
  (((Validator.mk [] []).CheckField (NotBlank form.email) "email"
      "This field cannot be blank").CheckField (rx form.email) "email"
      "This field must be a valid email address").CheckField
      (NotBlank form.password) "password" "This field cannot be blank"

/-- Outcome of users.Authenticate(email, password). -/
inductive AuthRes where
  | ok : Int → AuthRes
  | invalidCredentials : AuthRes
  | dbError : String → AuthRes
deriving DecidableEq, Repr

/-- The fields of templates.go templateData assembled by newTemplateData.
CurrentYear (ambient clock), CSRFToken (nosurf) and the handler payload are
outside the session model and not needed by any claim. -/
structure TemplateData where
  Flash : String
  IsAuthenticated : Bool
deriving DecidableEq, Repr

/-- helpers.go render, abstracted: assumes the cache hit and successful
execution the claims never exercise; writes the status and the page name as
the body. -/
def render (w : World) (status : Nat) (page : String) : World :=
  { w with resp := { w.resp with status := some status, body := page } }

/-- helpers.go newTemplateData: pops the flash message from the session
(read-once) and records the authentication status. -/
def newTemplateData (w : World) : TemplateData × World :=
  let fw := wpopString w "flash"
  ({ Flash := fw.1, IsAuthenticated := isAuthenticated fw.2 }, fw.2)

/-- handlers.go userLoginPost.  The form decoder result, the email regular
expression and users.Authenticate are oracle parameters; renewOk says whether
sessionManager.RenewToken succeeds.  Control flow follows the source: decode,
validate, authenticate, renew the token, put the user id, pop the saved
redirect path, redirect. -/
def userLoginPost (decoded : Option LoginForm) (rx : String → Bool)
    (authf : String → String → AuthRes) (renewOk : Bool) (w : World) : World :=
  match decoded with
  | none => clientError w 400
  | some form =>
    if (loginChecks form rx).Valid = true then
      match authf form.email form.password with
      | AuthRes.invalidCredentials => render (newTemplateData w).2 422 "login.gohtml"
      | AuthRes.dbError e => serverError w e
      | AuthRes.ok i =>
        if renewOk then
          let w1 := wrenewToken w
          let w2 := wput w1 "authenticatedUserID" (Val.vint i)
          let pw := wpopString w2 "redirectAfterLogin"
          if pw.1 ≠ "" then redirect pw.2 pw.1 303
          else redirect pw.2 "/snippet/create" 303
        else serverError w "session renew error"
    else render (newTemplateData w).2 422 "login.gohtml"

/-- handlers.go userLogoutPost: renew the token, remove the user id, put the
logout flash message, redirect home.  The flash text is abbreviated. -/
def userLogoutPost (renewOk : Bool) (w : World) : World :=
  if renewOk then
    let w1 := wrenewToken w
    let w2 := wremove w1 "authenticatedUserID"
    let w3 := wput w2 "flash" (Val.vstr "You have been logged out successfully!")
    redirect w3 "/" 303
  else serverError w "session renew error"

/-- Claim C2: on the login success path the token renewal happens strictly
before the authenticated-user id is put into the session (the event trace is
exactly renew, then put, then the redirect-path pop), and if renewal fails
nothing is put and the store is untouched; on logout the renewal happens
strictly before the id is removed; in both cases the old session token no
longer resolves in the store afterwards, while the new session carries the
expected authentication state. -/
theorem renew_before_auth_state_change
    (form : LoginForm) (rx : String → Bool) (authf : String → String → AuthRes)
    (i : Int) (w : World)
    (hv : (loginChecks form rx).Valid = true)
    (ha : authf form.email form.password = AuthRes.ok i)
    (hne : w.current ≠ w.next) :
    ((userLoginPost (some form) rx authf true w).events
        = w.events ++ [Ev.renew, Ev.put "authenticatedUserID", Ev.pop "redirectAfterLogin"]
      ∧ storeLookup (userLoginPost (some form) rx authf true w).store w.current = none
      ∧ slookup (currentData (userLoginPost (some form) rx authf true w))
          "authenticatedUserID" = some (Val.vint i))
    ∧ ((userLoginPost (some form) rx authf false w).events = w.events
      ∧ (userLoginPost (some form) rx authf false w).store = w.store)
    ∧ ((userLogoutPost true w).events
        = w.events ++ [Ev.renew, Ev.remove "authenticatedUserID", Ev.put "flash"]
      ∧ storeLookup (userLogoutPost true w).store w.current = none
      ∧ slookup (currentData (userLogoutPost true w)) "authenticatedUserID" = none) := by
  have hne' : w.next ≠ w.current := fun h => hne h.symm
  refine ⟨⟨?_, ?_, ?_⟩, ⟨?_, ?_⟩, ⟨?_, ?_, ?_⟩⟩
  · simp only [userLoginPost, hv, eq_self_iff_true, if_true, ha]
    split <;> simp [wrenewToken, wput, wpopString, redirect, List.append_assoc]
  · simp only [userLoginPost, hv, eq_self_iff_true, if_true, ha]
    split <;> simp [wrenewToken, wput, wpopString, redirect, currentData,
      storeLookup_storeWrite, storeLookup_storeErase, hne, hne']
  · simp only [userLoginPost, hv, eq_self_iff_true, if_true, ha]
    split <;> simp [wrenewToken, wput, wpopString, redirect, currentData,
      storeLookup_storeWrite, storeLookup_storeErase, slookup_sput, slookup_sremove]
  · simp [userLoginPost, hv, ha, serverError, httpError]
  · simp [userLoginPost, hv, ha, serverError, httpError]
  · simp [userLogoutPost, wrenewToken, wremove, wput, redirect, List.append_assoc]
  · simp [userLogoutPost, wrenewToken, wremove, wput, redirect, currentData,
      storeLookup_storeWrite, storeLookup_storeErase, hne, hne']
  · simp [userLogoutPost, wrenewToken, wremove, wput, redirect, currentData,
      storeLookup_storeWrite, storeLookup_storeErase, slookup_sput, slookup_sremove]

/-- Concrete login form for witnesses. -/
def formC : LoginForm := { email := "a@b.com", password := "password123" }

/-- Concrete email-regex oracle for witnesses. -/
def rxC : String → Bool := fun _ => true

/-- Concrete authentication oracle for witnesses: always user 42. -/
def authC : String → String → AuthRes := fun _ _ => AuthRes.ok 42

/-- Concrete witness for token renewal before authentication state change:
a concrete successful login and a logout on the empty session world. -/
theorem renew_before_auth_state_change_witness :
    (loginChecks formC rxC).Valid = true
    ∧ authC formC.email formC.password = AuthRes.ok 42
    ∧ w0.current ≠ w0.next
    ∧ (userLoginPost (some formC) rxC authC true w0).events
        = w0.events ++ [Ev.renew, Ev.put "authenticatedUserID", Ev.pop "redirectAfterLogin"]
    ∧ storeLookup (userLoginPost (some formC) rxC authC true w0).store w0.current = none
    ∧ (userLogoutPost true w0).events
        = w0.events ++ [Ev.renew, Ev.remove "authenticatedUserID", Ev.put "flash"] :=
  ⟨by decide, rfl, by decide,
   (renew_before_auth_state_change formC rxC authC 42 w0 (by decide) rfl (by decide)).1.1,
   (renew_before_auth_state_change formC rxC authC 42 w0 (by decide) rfl (by decide)).1.2.1,
   (renew_before_auth_state_change formC rxC authC 42 w0 (by decide) rfl (by decide)).2.2.1⟩

/-- Claim C7: flash messages are one-shot — after a flash value is put into
the session, the first template-data assembly returns it and removes the key
from the session, and a second assembly without an intervening put returns
the empty string. -/
theorem flash_read_once (w : World) (v : String) :
    (newTemplateData (wput w "flash" (Val.vstr v))).1.Flash = v
    ∧ slookup (currentData (newTemplateData (wput w "flash" (Val.vstr v))).2) "flash" = none
    ∧ (newTemplateData (newTemplateData (wput w "flash" (Val.vstr v))).2).1.Flash = "" := by
  refine ⟨?_, ?_, ?_⟩ <;>
    simp [newTemplateData, wpopString, wput, currentData,
      storeLookup_storeWrite, slookup_sput, slookup_sremove]

/-- Claim C10: after a successful login, a non-empty redirect path saved
under "redirectAfterLogin" is popped (the key leaves the session) and the
response is a 303 redirect to that path; with no saved path the response is
a 303 redirect to /snippet/create. -/
theorem login_redirect_after_login
    (form : LoginForm) (rx : String → Bool) (authf : String → String → AuthRes)
    (i : Int) (w : World) (p : String)
    (hv : (loginChecks form rx).Valid = true)
    (ha : authf form.email form.password = AuthRes.ok i) :
    (slookup (currentData w) "redirectAfterLogin" = some (Val.vstr p) → p ≠ "" →
      (userLoginPost (some form) rx authf true w).resp.status = some 303
      ∧ (userLoginPost (some form) rx authf true w).resp.redirectTo = some p
      ∧ slookup (currentData (userLoginPost (some form) rx authf true w))
          "redirectAfterLogin" = none)
    ∧ (slookup (currentData w) "redirectAfterLogin" = none →
      (userLoginPost (some form) rx authf true w).resp.status = some 303
      ∧ (userLoginPost (some form) rx authf true w).resp.redirectTo
          = some "/snippet/create") := by
  constructor
  · intro hp hp2
    simp only [currentData] at hp
    refine ⟨?_, ?_, ?_⟩ <;>
      simp [userLoginPost, hv, ha, wrenewToken, wput, wpopString, redirect,
        currentData, storeLookup_storeWrite, storeLookup_storeErase,
        slookup_sput, slookup_sremove, hp, hp2]
  · intro hp
    simp only [currentData] at hp
    constructor <;>
      simp [userLoginPost, hv, ha, wrenewToken, wput, wpopString, redirect,
        currentData, storeLookup_storeWrite, storeLookup_storeErase,
        slookup_sput, slookup_sremove, hp]

/-- A world whose session has a saved redirect path, for the C10 witness. -/
def wRedir : World :=
  { store := [(0, [("redirectAfterLogin", Val.vstr "/about")])], current := 0, next := 1
    resp := { status := none, headers := [], body := "", redirectTo := none }
    log := [], events := [] }

/-- Concrete witness for the post-login redirect: with a saved path /about
the login redirects there and drops the key; with no saved path it redirects
to /snippet/create. -/
theorem login_redirect_after_login_witness :
    (loginChecks formC rxC).Valid = true
    ∧ slookup (currentData wRedir) "redirectAfterLogin" = some (Val.vstr "/about")
    ∧ (userLoginPost (some formC) rxC authC true wRedir).resp.redirectTo = some "/about"
    ∧ slookup (currentData (userLoginPost (some formC) rxC authC true wRedir))
        "redirectAfterLogin" = none
    ∧ (userLoginPost (some formC) rxC authC true w0).resp.redirectTo
        = some "/snippet/create" :=
  ⟨by decide, rfl,
   ((login_redirect_after_login formC rxC authC 42 wRedir "/about" (by decide) rfl).1
      rfl (by decide)).2.1,
   ((login_redirect_after_login formC rxC authC 42 wRedir "/about" (by decide) rfl).1
      rfl (by decide)).2.2,
   ((login_redirect_after_login formC rxC authC 42 w0 "/about" (by decide) rfl).2 rfl).2⟩

/-- Go strconv.Atoi on the digits part: all characters must be decimal
digits and at least one must be present. -/
def parseDigits (cs : List Char) : Option Nat :=
  if cs.isEmpty then none
  else if cs.all Char.isDigit then
    some (cs.foldl (fun n c => n * 10 + (c.toNat - 48)) 0)
  else none

/-- Go strconv.Atoi: optional sign, then decimal digits, nothing else;
values outside the 64-bit int range error (modelled as none, matching the
handler treating any Atoi error the same way). -/
def atoi (s : String) : Option Int :=
  match s.data with
  | [] => none
  | c :: rest =>
    let sd : Bool × List Char :=
      if c = '-' then (true, rest)
      else if c = '+' then (false, rest)
      else (false, c :: rest)
    match parseDigits sd.2 with
    | none => none
    | some n =>
      let v : Int := if sd.1 then -(n : Int) else (n : Int)
      if v < -(2 ^ 63) ∨ 2 ^ 63 - 1 < v then none else some v

/-- httprouter Params.ByName: the value of the named parameter, "" when the
name is absent. -/
def paramsByName (ps : List (String × String)) (k : String) : String :=
  match ps.find? (fun p => p.1 == k) with
  | some p => p.2
  | none => ""

/-- models.Snippet as far as the handler needs it. -/
structure Snippet where
  ID : Int
  Title : String
  Content : String
deriving DecidableEq, Repr

/-- Outcome of snippets.Get(id): the record, ErrNoRecord, or another
database error. -/
inductive GetRes where
  | found : Snippet → GetRes
  | noRecord : GetRes
  | dbError : String → GetRes
deriving DecidableEq, Repr

/-- handlers.go snippetView: parse the :id parameter; a parse error or an id
below 1 yields notFound before the store is consulted; otherwise consult the
store and render (or 404 on ErrNoRecord, 500 on other errors). -/
def snippetView (params : List (String × String)) (get : Int → GetRes)
    (w : World) : World :=
  match atoi (paramsByName params "id") with
  | none => notFound w
  | some id =>
    if id < 1 then notFound w
    else
      match get id with
      | GetRes.noRecord => notFound w
      | GetRes.dbError e => serverError w e
      | GetRes.found _ => render (newTemplateData w).2 200 "view.gohtml"

/-- Claim C9: when the id parameter does not parse as an integer, or parses
to an integer below 1, snippetView responds 404 Not Found and the snippet
store is never consulted: the result is notFound of the incoming state for
every store oracle. -/
theorem snippetView_invalid_id (params : List (String × String)) (w : World)
    (h : atoi (paramsByName params "id") = none
      ∨ ∃ id, atoi (paramsByName params "id") = some id ∧ id < 1) :
    ∀ get : Int → GetRes, snippetView params get w = notFound w := by
  intro get
  rcases h with h | ⟨id, h, hlt⟩
  · simp [snippetView, h]
  · simp [snippetView, h, hlt]

/-- Concrete witness for the invalid-id path: a non-numeric id and a zero id
both produce notFound regardless of the store. -/
theorem snippetView_invalid_id_witness :
    (atoi (paramsByName [("id", "abc")] "id") = none
      ∨ ∃ id, atoi (paramsByName [("id", "abc")] "id") = some id ∧ id < 1)
    ∧ snippetView [("id", "abc")] (fun _ => GetRes.noRecord) w0 = notFound w0
    ∧ snippetView [("id", "0")] (fun _ => GetRes.noRecord) w0 = notFound w0 :=
  ⟨Or.inl (by decide),
   snippetView_invalid_id [("id", "abc")] w0 (Or.inl (by decide))
     (fun _ => GetRes.noRecord),
   snippetView_invalid_id [("id", "0")] w0 (Or.inr ⟨0, by decide, by decide⟩)
     (fun _ => GetRes.noRecord)⟩

/-- The handlers reachable from the route table of routes(). -/
inductive HName where
  | home | snippetViewH | aboutH | userSignup | userSignupPost
  | userLogin | userLoginPostH | userLogoutPostH
  | snippetCreate | snippetCreatePost
  | accountView | accountPasswordUpdate | accountPasswordUpdatePost
  | ping | staticFiles
deriving DecidableEq, Repr

/-- The route registrations of routes() (cmd/web routes file), transcribed
in registration order.  The POST pattern for the password update is written
exactly as in the source: "account/password/update", with no leading
slash. -/
def appRoutes : List (String × String × HName) :=
  [("GET", "/static/*filepath", HName.staticFiles),
   ("GET", "/ping", HName.ping),
   ("GET", "/", HName.home),
   ("GET", "/snippet/view/:id", HName.snippetViewH),
   ("GET", "/about", HName.aboutH),
   ("GET", "/user/signup", HName.userSignup),
   ("POST", "/user/signup", HName.userSignupPost),
   ("GET", "/user/login", HName.userLogin),
   ("POST", "/user/login", HName.userLoginPostH),
   ("GET", "/account/view", HName.accountView),
   ("GET", "/snippet/create", HName.snippetCreate),
   ("POST", "/snippet/create", HName.snippetCreatePost),
   ("POST", "/user/logout", HName.userLogoutPostH),
   ("GET", "/account/password/update", HName.accountPasswordUpdate),
   ("POST", "account/password/update", HName.accountPasswordUpdatePost)]

/-- httprouter matching restricted to parameter-free patterns: a request
(method, path) reaches the handler registered under exactly that pattern. -/
def lookupRoute (routes : List (String × String × HName))
    (method path : String) : Option HName :=
  match routes.find? (fun r => r.1 == method && r.2.1 == path) with
  | some r => some r.2.2
  | none => none

/-- httprouter Handle requires every registered pattern to begin with '/'
(it panics at registration otherwise). -/
def validPattern (p : String) : Bool :=
  match p.data with
  | [] => false
  | c :: _ => c = '/'

/-- Claim C8 fails on the code: the POST registration for the password
update uses the pattern "account/password/update" without the leading slash,
so no route matches POST /account/password/update (and httprouter rejects
the pattern at startup); the GET registration is fine.  This evaluates the
route table at the failing input. -/
theorem accountPasswordUpdate_post_route_broken :
    lookupRoute appRoutes "POST" "/account/password/update" = none
    ∧ ("POST", "account/password/update", HName.accountPasswordUpdatePost) ∈ appRoutes
    ∧ validPattern "account/password/update" = false
    ∧ validPattern "/account/password/update" = true
    ∧ lookupRoute appRoutes "GET" "/account/password/update"
        = some HName.accountPasswordUpdate := by
  refine ⟨?_, ?_, ?_, ?_, ?_⟩ <;> decide

/-- The filesystem/parser collaborator of newTemplateCache: parsing the base
layout, the partials glob, and one page file into a template set T. -/
structure TemplateOracle (T : Type) where
  parseBase : Except String T
  parseGlob : T → Except String T
  parsePage : String → T → Except String T

/-- filepath.Base for the glob output: the segment after the last slash
(glob results never end in a slash). -/
def filepathBase (p : String) : String :=
  ⟨(p.data.reverse.takeWhile (fun c => c ≠ '/')).reverse⟩

/-- Go map write for the template cache. -/
def cacheWrite {T : Type} : List (String × T) → String → T → List (String × T)
  | [], k, v => [(k, v)]
  | (k', v') :: rest, k, v =>
    if k' = k then (k, v) :: rest else (k', v') :: cacheWrite rest k v

theorem cacheWrite_of_not_mem {T : Type} (m : List (String × T)) (k : String)
    (v : T) (h : k ∉ m.map Prod.fst) : cacheWrite m k v = m ++ [(k, v)] := by
  induction m with
  | nil => rfl
  | cons e rest ih =>
    simp only [List.map_cons, List.mem_cons, not_or] at h
    have h1 : e.1 ≠ k := fun hh => h.1 hh.symm
    simp [cacheWrite, h1, ih h.2]

/-- The page loop of templates.go newTemplateCache: for each page parse the
base layout, the partials and the page itself; the first error aborts the
whole build with (nil, err); success stores the set under the page's base
file name.  Mirrors Go's (map, error) return. -/
def newTemplateCacheLoop {T : Type} (o : TemplateOracle T) :
    List String → List (String × T) → Option (List (String × T)) × Option String
  | [], cache => (some cache, none)
  | page :: rest, cache =>
    match o.parseBase with
    | Except.error e => (none, some e)
    | Except.ok ts0 =>
      match o.parseGlob ts0 with
      | Except.error e => (none, some e)
      | Except.ok ts1 =>
        match o.parsePage page ts1 with
        | Except.error e => (none, some e)
        | Except.ok ts2 =>
          newTemplateCacheLoop o rest (cacheWrite cache (filepathBase page) ts2)

/-- templates.go newTemplateCache on the glob result, starting from the
empty cache (the glob-error early return is not needed by any claim). -/
def newTemplateCache {T : Type} (o : TemplateOracle T) (pages : List String) :
    Option (List (String × T)) × Option String :=
  newTemplateCacheLoop o pages []

theorem newTemplateCacheLoop_fail {T : Type} (o : TemplateOracle T) (tb tg : T)
    (hb : o.parseBase = Except.ok tb) (hg : o.parseGlob tb = Except.ok tg)
    (pages : List String) :
    (∃ p ∈ pages, ∃ e, o.parsePage p tg = Except.error e) →
    ∀ cache, (newTemplateCacheLoop o pages cache).1 = none
      ∧ (newTemplateCacheLoop o pages cache).2.isSome := by
  induction pages with
  | nil => intro hf; simp at hf
  | cons p rest ih =>
    intro hf cache
    rcases hf with ⟨q, hq, e, he⟩
    rcases List.mem_cons.mp hq with rfl | hq'
    · simp [newTemplateCacheLoop, hb, hg, he]
    · cases hpp : o.parsePage p tg with
      | error e' => simp [newTemplateCacheLoop, hb, hg, hpp]
      | ok t =>
        simpa [newTemplateCacheLoop, hb, hg, hpp] using ih ⟨q, hq', e, he⟩ _

theorem newTemplateCacheLoop_ok {T : Type} (o : TemplateOracle T) (tb tg : T)
    (hb : o.parseBase = Except.ok tb) (hg : o.parseGlob tb = Except.ok tg)
    (pages : List String) :
    (∀ p ∈ pages, ∃ t, o.parsePage p tg = Except.ok t) →
    ∀ cache, (∀ p ∈ pages, filepathBase p ∉ cache.map Prod.fst) →
      (pages.map filepathBase).Nodup →
      (newTemplateCacheLoop o pages cache).2 = none
      ∧ ∃ c, (newTemplateCacheLoop o pages cache).1 = some c
        ∧ c.map Prod.fst = cache.map Prod.fst ++ pages.map filepathBase := by
  induction pages with
  | nil =>
    intro _ cache _ _
    exact ⟨rfl, cache, rfl, by simp [newTemplateCacheLoop]⟩
  | cons p rest ih =>
    intro hall cache hdisj hnd
    obtain ⟨t, ht⟩ := hall p (by simp)
    have hrest : ∀ q ∈ rest, ∃ u, o.parsePage q tg = Except.ok u :=
      fun q hq => hall q (by simp [hq])
    have hbp : filepathBase p ∉ cache.map Prod.fst := hdisj p (by simp)
    have hcw : cacheWrite cache (filepathBase p) t = cache ++ [(filepathBase p, t)] :=
      cacheWrite_of_not_mem _ _ _ hbp
    have hnd0 : (filepathBase p :: rest.map filepathBase).Nodup := by simpa using hnd
    have hnd1 := List.nodup_cons.mp hnd0
    have hdisj' : ∀ q ∈ rest,
        filepathBase q ∉ (cacheWrite cache (filepathBase p) t).map Prod.fst := by
      intro q hq
      rw [hcw]
      simp only [List.map_append, List.mem_append, not_or]
      refine ⟨hdisj q (by simp [hq]), ?_⟩
      simp only [List.map_cons, List.map_nil, List.mem_singleton]
      intro hin
      exact hnd1.1 (hin ▸ List.mem_map_of_mem filepathBase hq)
    obtain ⟨h2, c, hc1, hc2⟩ := ih hrest (cacheWrite cache (filepathBase p) t) hdisj' hnd1.2
    refine ⟨by simpa [newTemplateCacheLoop, hb, hg, ht] using h2,
      c, by simpa [newTemplateCacheLoop, hb, hg, ht] using hc1, ?_⟩
    rw [hc2, hcw]
    simp

/-- Claim C3: the template cache build is all-or-nothing — with the base
layout and partials parsing fine, if any single page fails to parse the
build returns an error and no cache at all (the map result is nil, never a
partially-filled map); if every page parses, the build returns no error and
a cache with exactly one entry per page file, keyed by the page's base file
name. -/
theorem newTemplateCache_all_or_nothing {T : Type} (o : TemplateOracle T)
    (pages : List String) (tb tg : T)
    (hb : o.parseBase = Except.ok tb) (hg : o.parseGlob tb = Except.ok tg) :
    ((∃ p ∈ pages, ∃ e, o.parsePage p tg = Except.error e) →
      (newTemplateCache o pages).1 = none ∧ (newTemplateCache o pages).2.isSome)
    ∧ ((∀ p ∈ pages, ∃ t, o.parsePage p tg = Except.ok t) →
      (pages.map filepathBase).Nodup →
      (newTemplateCache o pages).2 = none
      ∧ ∃ cache, (newTemplateCache o pages).1 = some cache
        ∧ cache.map Prod.fst = pages.map filepathBase) := by
  constructor
  · intro hf
    exact newTemplateCacheLoop_fail o tb tg hb hg pages hf []
  · intro hall hnd
    simpa [newTemplateCache] using
      newTemplateCacheLoop_ok o tb tg hb hg pages hall [] (by simp) hnd

/-- A concrete parser oracle: every page parses except bad.gohtml. -/
def oracleC : TemplateOracle Nat :=
  { parseBase := Except.ok 0
    parseGlob := fun t => Except.ok (t + 1)
    parsePage := fun p t =>
      if p = "ui/html/pages/bad.gohtml" then Except.error "template: parse error"
      else Except.ok (t + 1) }

/-- Concrete witness for the all-or-nothing build: with a corrupt page the
build yields no cache and an error; without it the cache has one entry per
page, keyed by base name. -/
theorem newTemplateCache_all_or_nothing_witness :
    ((newTemplateCache oracleC
        ["ui/html/pages/home.gohtml", "ui/html/pages/bad.gohtml"]).1 = none
      ∧ (newTemplateCache oracleC
        ["ui/html/pages/home.gohtml", "ui/html/pages/bad.gohtml"]).2.isSome)
    ∧ ((newTemplateCache oracleC
        ["ui/html/pages/home.gohtml", "ui/html/pages/view.gohtml"]).2 = none
      ∧ ∃ cache, (newTemplateCache oracleC
          ["ui/html/pages/home.gohtml", "ui/html/pages/view.gohtml"]).1 = some cache
        ∧ cache.map Prod.fst
            = ["ui/html/pages/home.gohtml", "ui/html/pages/view.gohtml"].map filepathBase) :=
  ⟨(newTemplateCache_all_or_nothing oracleC
      ["ui/html/pages/home.gohtml", "ui/html/pages/bad.gohtml"] 0 1 rfl rfl).1
      ⟨"ui/html/pages/bad.gohtml", by decide, "template: parse error", rfl⟩,
   (newTemplateCache_all_or_nothing oracleC
      ["ui/html/pages/home.gohtml", "ui/html/pages/view.gohtml"] 0 1 rfl rfl).2
      (by
        intro p hp
        rcases List.mem_cons.mp hp with rfl | hp'
        · exact ⟨2, rfl⟩
        · rcases List.mem_cons.mp hp' with rfl | hp''
          · exact ⟨2, rfl⟩
          · simp at hp'')
      (by decide)⟩

end Snippetbox
